import Mathlib

/-!
Shallow embedding of the composition and build-orchestration layer of
src/limesdr_xtrx.py (LimeSDR-XTRX LiteX gateware target), together with
theorems settling the specification claims about it.

The embedding follows the source: `BaseSoC.__init__` becomes the pure
function `baseSoC` producing a `SoC` record (regions, exported constants,
peripheral index table, main-RAM initial contents, attached components,
stream links, timing declarations), and `main` becomes `mainBuild`, a
deterministic trace of the two-run build loop over an oracle describing
the external world (composition and builder success, firmware make exit
status, firmware file contents).
-/

namespace LimeSDRXTRX

/-- A memory region as registered on the SoC bus: origin, size and whether it
is a linker-only region (`SoCRegion(..., linker=True)` in the source). -/
structure MemRegion where
  origin : Nat
  size   : Nat
  linker : Bool
deriving DecidableEq, Repr

/-- A negotiated stream connection as produced by
`source.connect(sink, keep=...)` (src/limesdr_xtrx.py lines 239-242):
producer and consumer endpoint names, the field sets each endpoint
declares, and the negotiated `keep` set. -/
structure StreamLink where
  producer       : String
  consumer       : String
  producerFields : List String
  consumerFields : List String
  keep           : List String
deriving DecidableEq, Repr

/-- Timing declarations accumulated during composition: clock domains with
their frequencies in Hz, period constraints in ns
(`platform.add_period_constraint`), false-path pairs
(`platform.add_false_path_constraints`) and asynchronous clock-group pairs
(the `set_clock_groups ... -asynchronous` pre-placement commands,
src/limesdr_xtrx.py lines 223-226). -/
structure TimingDecls where
  domains           : List (String × Nat)
  periodConstraints : List (String × Nat)
  falsePaths        : List (String × String)
  asyncGroups       : List (String × String)
deriving DecidableEq, Repr

/-- The composed SoC state that the claims are about. -/
structure SoC where
  regions       : List (String × MemRegion)
  constants     : List (String × Nat)
  csr_map       : List (String × Nat)
  main_ram_init : List Nat
  components    : List String
  stream_links  : List StreamLink
  timing        : TimingDecls
deriving DecidableEq, Repr

/-- Name lookup in an association list (Python dict access by key). -/
def lookup {α : Type} (l : List (String × α)) (name : String) : Option α :=
  (l.find? (fun p => p.1 == name)).map Prod.snd

/-- The fixed, hand-written peripheral index table
`SoCCore.csr_map = { "uart": 0, ... }` (src/limesdr_xtrx.py lines 70-89). -/
def csr_map : List (String × Nat) :=
  [ ("uart"     , 0),
    ("icap"     , 1),
    ("flash"    , 2),
    ("xadc"     , 3),
    ("dna"      , 4),
    ("pcie_phy" , 10),
    ("pcie_msi" , 11),
    ("pcie_dma0", 12),
    ("i2c0"     , 20),
    ("i2c1"     , 21),
    ("analyzer" , 30) ]

/-- LiteX SoCCore default memory-map origin of the integrated ROM. -/
def mem_map_rom : Nat := 0x00000000

/-- LiteX SoCCore default memory-map origin of the integrated SRAM. -/
def mem_map_sram : Nat := 0x10000000

/-- LiteX SoCCore default memory-map origin of the integrated main RAM;
`self.mem_map["main_ram"]` in the source (line 166). -/
def mem_map_main_ram : Nat := 0x40000000

/-- LiteX `get_mem_data(filename, endianness="little")`: packs the firmware
file bytes into 32-bit little-endian words (the last word zero-padded),
modelled on the byte list that is the file content. -/
def get_mem_data : List Nat → List Nat
  | [] => []
  | [b0] => [b0]
  | [b0, b1] => [b0 + 0x100 * b1]
  | [b0, b1, b2] => [b0 + 0x100 * b1 + 0x10000 * b2]
  | b0 :: b1 :: b2 :: b3 :: rest =>
      (b0 + 0x100 * b1 + 0x10000 * b2 + 0x1000000 * b3) :: get_mem_data rest

/-- Declared fields of a LitePCIe DMA stream endpoint
(`pcie_dma0.source` / `pcie_dma0.sink`): a LiteX `stream.Endpoint` carries
valid/ready/first/last handshake fields plus the data payload. -/
def pcie_endpoint_fields : List String :=
  ["valid", "ready", "first", "last", "data"]

/-- Modelled from the spec: gateware/LimeTop.py is repository code that is
not under src/; the spec describes the payload-processing core endpoints
(`lime_top.dma_rx` / `lime_top.dma_tx`) as StreamEndpoints negotiated over
the fields valid, ready, last and data. -/
def lime_top_endpoint_fields : List String :=
  ["valid", "ready", "last", "data"]

/-- The `keep` set used by both `connect` calls
(src/limesdr_xtrx.py lines 240-241). -/
def stream_keep : List String :=
  ["valid", "ready", "last", "data"]

/-- The two stream links created by composition (lines 239-242): host to
device (PCIe DMA source into LimeTop rx) and device to host (LimeTop tx
into PCIe DMA sink). -/
def stream_links : List StreamLink :=
  [ { producer       := "pcie_dma0.source"
      consumer       := "lime_top.dma_rx"
      producerFields := pcie_endpoint_fields
      consumerFields := lime_top_endpoint_fields
      keep           := stream_keep },
    { producer       := "lime_top.dma_tx"
      consumer       := "pcie_dma0.sink"
      producerFields := lime_top_endpoint_fields
      consumerFields := pcie_endpoint_fields
      keep           := stream_keep } ]

/-- The asynchronous clock-group pre-placement commands appended for
`i in range(4)` (src/limesdr_xtrx.py lines 223-226): each PCIe PHY output
clock is declared asynchronous to dna_clk, jtag_clk and icap_clk. -/
def pciephyAsyncGroups : List (String × String) :=
  (List.range 4).flatMap (fun i =>
    let c := "s7pciephy_clkout" ++ toString i
    [(c, "dna_clk"), (c, "jtag_clk"), (c, "icap_clk")])

/-- The keyword arguments of `BaseSoC.__init__` (src/limesdr_xtrx.py lines
91-97), with the same defaults. `cpu_firmware` is the content (byte list)
of the firmware file, `none` when the Python argument is None. -/
structure BaseSoCArgs where
  board                 : String := "limesdr"
  sys_clk_freq          : Nat := 125000000
  with_cpu              : Bool := true
  cpu_firmware          : Option (List Nat) := none
  with_jtagbone         : Bool := true
  with_bscan            : Bool := false
  flash_boot            : Bool := false
  firmware_flash_offset : Nat := 0x220000
deriving DecidableEq, Repr

/-- Embedding of `BaseSoC.__init__` (src/limesdr_xtrx.py lines 91-242).
`spiflashOrigin` is the bus origin the LiteX allocator gives the
`spiflash` region added by `add_spi_flash`; the claims relate other
addresses to it rather than fixing its value. -/
def baseSoC (spiflashOrigin : Nat) (a : BaseSoCArgs) : SoC :=
  -- SoCCore integrated memories (lines 112-122).
  let baseRegions : List (String × MemRegion) :=
    if a.with_cpu then
      [ ("rom"     , ⟨mem_map_rom     , 0x8000, false⟩),
        ("sram"    , ⟨mem_map_sram    , 0x1000, false⟩),
        ("main_ram", ⟨mem_map_main_ram, 0x4000, false⟩) ]
    else []
  -- integrated_main_ram_init (line 120).
  let mainRamInit : List Nat :=
    match a.cpu_firmware with
    | none => []
    | some fw => if a.flash_boot then [] else get_mem_data fw
  -- SPIFlash / boot branch (lines 151-168).
  let flashRegions : List (String × MemRegion) :=
    if a.flash_boot then
      [ ("spiflash", ⟨spiflashOrigin, 0x2000000, false⟩),
        ("flash"   , ⟨spiflashOrigin + a.firmware_flash_offset, 0x40000, true⟩) ]
    else []
  let flashConstants : List (String × Nat) :=
    if a.flash_boot then
      [("FLASH_BOOT_ADDRESS", spiflashOrigin + a.firmware_flash_offset)]
    else
      [("ROM_BOOT_ADDRESS", mem_map_main_ram)]
  let flashComponents : List String :=
    if a.flash_boot then ["spiflash"] else ["flash_cs_n", "flash"]
  -- Attached submodules, in source order.
  let comps : List String :=
    (if a.with_cpu then ["cpu"] else []) ++ ["uart", "crg"]
    ++ (if a.with_jtagbone then ["jtagbone"] else [])
    ++ (if a.with_bscan then ["jtag_cpu_debug"] else [])
    ++ ["leds", "icap"]
    ++ flashComponents
    ++ ["xadc", "dna", "pcie_phy", "pcie_msi", "pcie_dma0",
        "i2c0", "i2c1", "aux", "lime_top"]
  -- Timing declarations (lines 130-133, 223-226, 246-263).
  let timing : TimingDecls :=
    { domains :=
        [("sys", a.sys_clk_freq), ("idelay", 200000000), ("pcie", 125000000)]
        ++ (if a.with_jtagbone || a.with_bscan then [("jtag", 20000000)] else [])
      periodConstraints :=
        (if a.with_jtagbone then [("jtag", 50)] else [])
        ++ (if a.with_bscan then [("jtag", 50)] else [])
      falsePaths :=
        (if a.with_jtagbone then [("jtag", "sys")] else [])
        ++ (if a.with_bscan then [("jtag", "sys")] else [])
      asyncGroups := pciephyAsyncGroups }
  { regions       := baseRegions ++ flashRegions
                     ++ [("lime_top_mmap", ⟨0x3000000, 0x1000, false⟩)]
    constants     := flashConstants
    csr_map       := csr_map
    main_ram_init := mainRamInit
    components    := comps
    stream_links  := stream_links
    timing        := timing }

/-- The command-line arguments parsed by `main` (src/limesdr_xtrx.py lines
268-278), with the same defaults. `firmware_flash_offset` holds the
well-typed integer value used by the build loop; the dynamic typing of the
raw command-line token is modelled separately by `PyVal` below. -/
structure CLIArgs where
  board                 : String := "fairwaves_pro"
  with_bscan            : Bool := false
  build                 : Bool := false
  load                  : Bool := false
  flash                 : Bool := false
  driver                : Bool := false
  flash_boot            : Bool := false
  firmware_flash_offset : Nat := 0x220000
deriving DecidableEq, Repr

/-- Oracle for the external world a build interacts with: whether `BaseSoC`
construction and `builder.build` succeed on each run (a false value stands
for a raised Python exception), the exit status of the firmware
`os.system("cd firmware && make ...")` call, and the bytes of
firmware/firmware.bin as read in the second run. -/
structure BuildEnv where
  composeOk     : Nat → Bool
  builderOk     : Nat → Bool
  makeExit      : Nat
  firmwareBytes : List Nat

/-- Observable external steps taken by `main`, in order. `builderBuild run
genImage` is `builder.build(run=genImage)`: the final hardware image is
generated exactly when `genImage` is true. -/
inductive BuildEvent where
  | compose (run : Nat)
  | builderBuild (run : Nat) (genImage : Bool)
  | firmwareMake (exitCode : Nat)
  | driverGen
  | loadBitstream
  | flashBitstream
  | flashFirmware (offset : Nat)
deriving DecidableEq, Repr

/-- A build abort: the Python exception that terminated `main`. -/
inductive BuildError where
  | composeError (run : Nat)
  | builderError (run : Nat)
deriving DecidableEq, Repr

/-- The `BaseSoC` arguments `main` passes on run `run` of its loop
(src/limesdr_xtrx.py lines 284-291): `cpu_firmware` is None on the prepare
run and the firmware file on the finalize run, and the JTAGBone bridge is
enabled exactly when `--with-bscan` is not given. -/
def socArgsForRun (args : CLIArgs) (env : BuildEnv) (run : Nat) : BaseSoCArgs :=
  { board                 := args.board
    cpu_firmware          := if run == 0 then none else some env.firmwareBytes
    with_jtagbone         := !args.with_bscan
    with_bscan            := args.with_bscan
    flash_boot            := args.flash_boot
    firmware_flash_offset := args.firmware_flash_offset }

/-- A single-element event list guarded by a flag (an action `main` takes
only when the corresponding CLI flag is set). -/
def optEvent (b : Bool) (e : BuildEvent) : List BuildEvent :=
  if b then [e] else []

/-- One iteration of the build loop (src/limesdr_xtrx.py lines 281-295):
construct `BaseSoC`, run the builder with `run=((run == 1) & args.build)`,
and on the prepare run invoke the firmware make via `os.system`, whose
exit status is discarded. Returns the events performed and the abort, if
any. -/
def buildRun (args : CLIArgs) (env : BuildEnv) (run : Nat) :
    List BuildEvent × Option BuildError :=
  let prepare := run == 0
  let genImage := (run == 1) && args.build
  if env.composeOk run then
    if env.builderOk run then
      if prepare then
        -- os.system return value is not checked: env.makeExit is recorded
        -- in the trace but never consulted.
        ([.compose run, .builderBuild run genImage, .firmwareMake env.makeExit],
         none)
      else
        ([.compose run, .builderBuild run genImage], none)
    else
      ([.compose run, .builderBuild run genImage], some (.builderError run))
  else
    ([.compose run], some (.composeError run))

/-- Embedding of `main` (src/limesdr_xtrx.py lines 267-315): the two-run
build loop followed by driver generation and the optional load/flash
steps. A raised exception stops execution at the point it occurs. -/
def mainBuild (args : CLIArgs) (env : BuildEnv) :
    List BuildEvent × Option BuildError :=
  match buildRun args env 0 with
  | (t0, some e) => (t0, some e)
  | (t0, none) =>
    match buildRun args env 1 with
    | (t1, some e) => (t0 ++ t1, some e)
    | (t1, none) =>
      (t0 ++ t1 ++ [.driverGen]
        ++ optEvent args.load .loadBitstream
        ++ optEvent args.flash .flashBitstream
        ++ optEvent (args.flash_boot && args.flash)
             (.flashFirmware args.firmware_flash_offset),
       none)

/-- A dynamically typed Python value, as far as the offset option needs:
an int or a str. -/
inductive PyVal where
  | int (n : Nat)
  | str (s : String)
deriving DecidableEq, Repr

/-- Python binary `+` on `PyVal`: int + int adds, str + str concatenates,
and a mixed application raises TypeError. -/
def pyAdd : PyVal → PyVal → Except String PyVal
  | .int a, .int b => .ok (.int (a + b))
  | .str a, .str b => .ok (.str (a ++ b))
  | _, _ => .error "TypeError: unsupported operand types for +"

/-- The value argparse stores for `--firmware-flash-offset`
(src/limesdr_xtrx.py line 277): the option is declared with
`default=0x220000` and no `type=` conversion, so an absent option yields
the integer default while a token supplied on the command line is kept as
the raw string. -/
def firmware_flash_offset_value : Option String → PyVal
  | none => .int 0x220000
  | some s => .str s

/-- The origin computation of the linked flash region,
`self.bus.regions["spiflash"].origin + firmware_flash_offset`
(src/limesdr_xtrx.py line 158), under Python dynamic typing of the offset
value. -/
def flash_region_origin (spiflashOrigin : Nat) (offset : PyVal) :
    Except String Nat :=
  match pyAdd (.int spiflashOrigin) offset with
  | .ok (.int n) => .ok n
  | .ok (.str s) => .error s
  | .error e => .error e

/-- The validation of timing declarations that build finalization performs.
Modelled from the source: src/limesdr_xtrx.py appends its false-path and
async clock-group declarations to the platform command lists verbatim
(lines 130-133 and 223-226) and no code anywhere in the file inspects the
accumulated declarations or checks async-group completeness, so
finalization never reports a missing-async validation error. -/
def timing_finalize_validation (_t : TimingDecls) : Option String :=
  none

/-! ## Theorems settling the claims -/

/-- A stream link is well negotiated: its `keep` set is contained in both
endpoints declared field sets and contains valid, ready and data. -/
def link_ok (l : StreamLink) : Bool :=
  l.keep.all (fun f => l.producerFields.contains f) &&
  l.keep.all (fun f => l.consumerFields.contains f) &&
  ["valid", "ready", "data"].all (fun f => l.keep.contains f)

/-- C6: in every composed SoC the peripheral-index table assigns pairwise
distinct indices to its entries, and the indices are not the auto-assigned
consecutive enumeration 0..n-1 (the table is a fixed hand-curated
assignment with deliberate gaps). -/
theorem csr_map_indices_distinct (sp : Nat) (a : BaseSoCArgs) :
    ((baseSoC sp a).csr_map.map Prod.snd).Pairwise (· ≠ ·) ∧
    (baseSoC sp a).csr_map.map Prod.snd ≠
      List.range (baseSoC sp a).csr_map.length := by
  have h : (baseSoC sp a).csr_map = csr_map := rfl
  rw [h]
  decide

/-- C5: composition creates exactly two stream links, one host-to-device
(PCIe DMA source into the LimeTop rx port) and one device-to-host (LimeTop
tx port into the PCIe DMA sink), and each carries a negotiated keep set
that is a subset of both endpoints declared fields and a superset of
the set containing valid, ready and data. -/
theorem stream_links_negotiated (sp : Nat) (a : BaseSoCArgs) :
    (baseSoC sp a).stream_links.length = 2 ∧
    (baseSoC sp a).stream_links.all link_ok = true ∧
    (baseSoC sp a).stream_links.map (fun l => (l.producer, l.consumer)) =
      [("pcie_dma0.source", "lime_top.dma_rx"),
       ("lime_top.dma_tx", "pcie_dma0.sink")] := by
  have h : (baseSoC sp a).stream_links = stream_links := rfl
  rw [h]
  exact ⟨rfl, by decide, rfl⟩

/-- C1: if flash_boot is true, the exported FLASH_BOOT_ADDRESS constant
equals the spiflash region origin plus firmware_flash_offset and equals
the origin of the linked flash region; if flash_boot is false, the
exported ROM_BOOT_ADDRESS constant equals the origin of the main_ram
region. -/
theorem boot_constant_resolution (sp : Nat) (a : BaseSoCArgs) :
    (a.flash_boot = true →
      lookup (baseSoC sp a).constants "FLASH_BOOT_ADDRESS" =
        some (sp + a.firmware_flash_offset) ∧
      (lookup (baseSoC sp a).regions "spiflash").map MemRegion.origin =
        some sp ∧
      (lookup (baseSoC sp a).regions "flash").map MemRegion.origin =
        some (sp + a.firmware_flash_offset) ∧
      (lookup (baseSoC sp a).regions "flash").map MemRegion.linker =
        some true) ∧
    (a.flash_boot = false →
      lookup (baseSoC sp a).constants "ROM_BOOT_ADDRESS" =
        some mem_map_main_ram ∧
      (a.with_cpu = true →
        (lookup (baseSoC sp a).regions "main_ram").map MemRegion.origin =
          some mem_map_main_ram)) := by
  obtain ⟨board, freq, wc, fw, wj, wb, fb, off⟩ := a
  constructor
  · intro h
    cases h
    cases wc <;> simp [baseSoC, lookup]
  · intro h
    cases h
    refine ⟨by cases wc <;> simp [baseSoC, lookup], ?_⟩
    intro h
    cases h
    simp [baseSoC, lookup]

/-- Witness for csr_map_indices_distinct at a concrete composition. -/
theorem csr_map_indices_distinct_witness :
    ((baseSoC 0x20000000 {}).csr_map.map Prod.snd).Pairwise (· ≠ ·) :=
  (csr_map_indices_distinct 0x20000000 {}).1

/-- Witness for boot_constant_resolution in both boot modes. -/
theorem boot_constant_resolution_witness :
    lookup (baseSoC 0x20000000 { flash_boot := true }).constants
      "FLASH_BOOT_ADDRESS" = some (0x20000000 + 0x220000) ∧
    lookup (baseSoC 0x20000000 {}).constants
      "ROM_BOOT_ADDRESS" = some mem_map_main_ram :=
  ⟨((boot_constant_resolution 0x20000000 { flash_boot := true }).1 rfl).1,
   ((boot_constant_resolution 0x20000000 {}).2 rfl).1⟩

/-- C2: the prepare run composes with the firmware payload absent; the
finalize run is given the payload, embeds it as main_ram initial contents
exactly when flash_boot is false, and leaves main_ram initial contents
empty in both runs when flash_boot is true. -/
theorem two_phase_payload (args : CLIArgs) (env : BuildEnv) (sp : Nat) :
    (socArgsForRun args env 0).cpu_firmware = none ∧
    (baseSoC sp (socArgsForRun args env 0)).main_ram_init = [] ∧
    (socArgsForRun args env 1).cpu_firmware = some env.firmwareBytes ∧
    (args.flash_boot = false →
      (baseSoC sp (socArgsForRun args env 1)).main_ram_init =
        get_mem_data env.firmwareBytes) ∧
    (args.flash_boot = true →
      (baseSoC sp (socArgsForRun args env 1)).main_ram_init = []) := by
  refine ⟨rfl, rfl, rfl, ?_, ?_⟩ <;> intro h <;>
    simp [baseSoC, socArgsForRun, h]

/-- Witness for two_phase_payload in both boot modes. -/
theorem two_phase_payload_witness :
    (baseSoC 0 (socArgsForRun {} ⟨fun _ => true, fun _ => true, 0, [1, 2]⟩ 1)).main_ram_init =
      get_mem_data [1, 2] ∧
    (baseSoC 0 (socArgsForRun { flash_boot := true }
        ⟨fun _ => true, fun _ => true, 0, [1, 2]⟩ 1)).main_ram_init = [] := by
  exact ⟨((two_phase_payload {} ⟨fun _ => true, fun _ => true, 0, [1, 2]⟩ 0).2.2.2.1 rfl),
         ((two_phase_payload { flash_boot := true }
             ⟨fun _ => true, fun _ => true, 0, [1, 2]⟩ 0).2.2.2.2 rfl)⟩

/-- C10: for every CLI invocation and either build run, the composed SoC
contains the JTAGBone bridge exactly when the with-bscan flag is not
given, and the JTAGBone bridge and the JTAG CPU debug chain are never
both present. -/
theorem jtagbone_iff_no_bscan (args : CLIArgs) (env : BuildEnv) (sp r : Nat) :
    ("jtagbone" ∈ (baseSoC sp (socArgsForRun args env r)).components ↔
      args.with_bscan = false) ∧
    ¬("jtagbone" ∈ (baseSoC sp (socArgsForRun args env r)).components ∧
      "jtag_cpu_debug" ∈ (baseSoC sp (socArgsForRun args env r)).components) := by
  cases hb : args.with_bscan <;>
    cases hf : args.flash_boot <;>
      simp [baseSoC, socArgsForRun, hb, hf]

/-- Witness for jtagbone_iff_no_bscan: default CLI arguments include the
JTAGBone bridge. -/
theorem jtagbone_iff_no_bscan_witness :
    "jtagbone" ∈
      (baseSoC 0 (socArgsForRun {} ⟨fun _ => true, fun _ => true, 0, []⟩ 0)).components :=
  (jtagbone_iff_no_bscan {} ⟨fun _ => true, fun _ => true, 0, []⟩ 0 0).1.mpr rfl

/-- Membership in a flag-guarded event list. -/
theorem mem_optEvent {x e : BuildEvent} {b : Bool} :
    x ∈ optEvent b e ↔ b = true ∧ x = e := by
  cases b <;> simp [optEvent]

/-- C7: the prepare run never requests final hardware-image generation,
and when the build action flag is not given the finalize run does not
request it either: image generation happens only in the finalize run and
only with the build flag. -/
theorem prepare_never_generates_image (args : CLIArgs) (env : BuildEnv) :
    BuildEvent.builderBuild 0 true ∉ (mainBuild args env).1 ∧
    (args.build = false →
      BuildEvent.builderBuild 1 true ∉ (mainBuild args env).1) := by
  cases h0 : env.composeOk 0 <;> cases h1 : env.builderOk 0 <;>
    cases h2 : env.composeOk 1 <;> cases h3 : env.builderOk 1 <;>
      cases hb : args.build <;>
        simp [mainBuild, buildRun, mem_optEvent, h0, h1, h2, h3, hb]

/-- Witness for prepare_never_generates_image on a fully successful build
without the build flag. -/
theorem prepare_never_generates_image_witness :
    BuildEvent.builderBuild 1 true ∉
      (mainBuild {} ⟨fun _ => true, fun _ => true, 0, []⟩).1 :=
  (prepare_never_generates_image {} ⟨fun _ => true, fun _ => true, 0, []⟩).2 rfl

/-- A fully successful external world whose firmware make step exits with
status 2 (a compilation failure). -/
def buildEnvMakeFails : BuildEnv :=
  ⟨fun _ => true, fun _ => true, 2, []⟩

/-- C3 counterexample: with the build flag given and the firmware make
step failing (exit status 2), main does not abort (the os.system status
is discarded) and the final image-generation step is still invoked. -/
theorem make_failure_does_not_abort :
    buildEnvMakeFails.makeExit ≠ 0 ∧
    (mainBuild { build := true } buildEnvMakeFails).2 = none ∧
    BuildEvent.firmwareMake 2 ∈ (mainBuild { build := true } buildEnvMakeFails).1 ∧
    BuildEvent.builderBuild 1 true ∈
      (mainBuild { build := true } buildEnvMakeFails).1 := by
  decide

/-- C3 amended: a failure that raises an exception - composition failing
in either run, or the gateware builder failing in the prepare run - aborts
the build before the image-generation step is invoked; the firmware make
exit status, however, is never consulted. -/
theorem exception_aborts_before_image (args : CLIArgs) (env : BuildEnv)
    (h : env.composeOk 0 = false ∨ env.builderOk 0 = false ∨
         env.composeOk 1 = false) :
    (mainBuild args env).2.isSome = true ∧
    BuildEvent.builderBuild 1 true ∉ (mainBuild args env).1 := by
  rcases h with h | h | h
  · simp [mainBuild, buildRun, h]
  · cases h0 : env.composeOk 0
    · simp [mainBuild, buildRun, h0]
    · simp [mainBuild, buildRun, h0, h]
  · cases h0 : env.composeOk 0
    · simp [mainBuild, buildRun, h0]
    · cases h1 : env.builderOk 0
      · simp [mainBuild, buildRun, h0, h1]
      · simp [mainBuild, buildRun, h0, h1, h]

/-- An external world where composition raises on every run. -/
def buildEnvComposeFails : BuildEnv :=
  ⟨fun _ => false, fun _ => true, 0, []⟩

/-- Witness for exception_aborts_before_image. -/
theorem exception_aborts_before_image_witness :
    (mainBuild { build := true } buildEnvComposeFails).2.isSome = true ∧
    BuildEvent.builderBuild 1 true ∉
      (mainBuild { build := true } buildEnvComposeFails).1 :=
  exception_aborts_before_image { build := true } buildEnvComposeFails
    (Or.inl rfl)

/-- Lookup on a cons cell. -/
theorem lookup_cons {α : Type} (k : String) (v : α) (l : List (String × α))
    (n : String) :
    lookup ((k, v) :: l) n = if k == n then some v else lookup l n := by
  cases h : k == n <;> simp [lookup, List.find?, h]

/-- C4 counterexample: with the same board and offset 0x220000, the
flash_boot run additionally contains the memory-mapped spiflash region
(a non-linker region distinct from the linked flash region), absent from
the non-flash_boot run, so the two runs differ in more than boot mode,
boot address and the linked flash region. -/
theorem flash_boot_adds_spiflash_region :
    lookup (baseSoC 0x20000000 { flash_boot := true }).regions "spiflash" =
      some ⟨0x20000000, 0x2000000, false⟩ ∧
    lookup (baseSoC 0x20000000 {}).regions "spiflash" = none := by
  decide

/-- C4 amended: with a fixed board and offset 0x220000, the two runs agree
on every region other than the spiflash region and its linked flash
sub-region, and on the whole peripheral index table. -/
theorem flash_boot_frame_effect (sp : Nat) (board : String) (name : String)
    (h1 : name ≠ "spiflash") (h2 : name ≠ "flash") :
    lookup (baseSoC sp { board := board, flash_boot := true }).regions name =
      lookup (baseSoC sp { board := board }).regions name ∧
    (baseSoC sp { board := board, flash_boot := true }).csr_map =
      (baseSoC sp { board := board }).csr_map := by
  have h1f : ("spiflash" == name) = false := by
    simp only [beq_eq_false_iff_ne]
    exact Ne.symm h1
  have h2f : ("flash" == name) = false := by
    simp only [beq_eq_false_iff_ne]
    exact Ne.symm h2
  refine ⟨?_, rfl⟩
  simp [baseSoC, lookup_cons, h1f, h2f]

/-- Witness for flash_boot_frame_effect at the main_ram region. -/
theorem flash_boot_frame_effect_witness :
    lookup (baseSoC 0x20000000
        { board := "limesdr", flash_boot := true }).regions "main_ram" =
    lookup (baseSoC 0x20000000 { board := "limesdr" }).regions "main_ram" :=
  (flash_boot_frame_effect 0x20000000 "limesdr" "main_ram"
    (by decide) (by decide)).1

/-- The timing declarations of the claim C9 scenario: domains pcie_clk
(125 MHz, external) and jtag_clk (20 MHz, external) with no async
declaration between them. -/
def missingAsyncDecls : TimingDecls :=
  { domains           := [("pcie_clk", 125000000), ("jtag_clk", 20000000)]
    periodConstraints := []
    falsePaths        := []
    asyncGroups       := [] }

/-- C9 counterexample: finalize validation of two unrelated domains with
no async declaration between them reports no error, because the source
performs no such validation. -/
theorem missing_async_not_rejected :
    timing_finalize_validation missingAsyncDecls = none := rfl

/-- C9 amended: build finalization performs no async-declaration
validation (it never fails with a validation error); the composition
instead unconditionally emits async clock-group constraints between the
PCIe PHY output clocks and jtag_clk. -/
theorem async_groups_declared (sp : Nat) (a : BaseSoCArgs) :
    timing_finalize_validation (baseSoC sp a).timing = none ∧
    ("s7pciephy_clkout0", "jtag_clk") ∈ (baseSoC sp a).timing.asyncGroups := by
  refine ⟨rfl, ?_⟩
  have h : (baseSoC sp a).timing.asyncGroups = pciephyAsyncGroups := rfl
  rw [h]
  decide

/-- C8: evaluation at the failing input. The option stores a value
supplied on the command line as a raw string (no type conversion is
declared), so composing with flash_boot and a command-line offset of
0x200000 raises a TypeError instead of computing the flash region origin;
only the absent-option default path computes origin + 0x220000. -/
theorem cli_offset_string_type_error :
    firmware_flash_offset_value (some "0x200000") = PyVal.str "0x200000" ∧
    flash_region_origin 0x20000000 (firmware_flash_offset_value (some "0x200000")) =
      Except.error "TypeError: unsupported operand types for +" ∧
    flash_region_origin 0x20000000 (firmware_flash_offset_value none) =
      Except.ok (0x20000000 + 0x220000) :=
  ⟨rfl, rfl, rfl⟩

end LimeSDRXTRX
